import Mathlib

/-!
Verification of the pagination and export engine of `sistema_admin`.

The definitions below are a shallow embedding of the JavaScript source:

* `src/js/templates.js`, `exportComunicadoPDF`: the per-document PDF
  paginator (page-count formula, body slicing loop, per-page header
  re-rasterization, footer placement, file naming, error paths).
* `src/js/templates.js`, `exportComunicadosPDF`: the batch exporter loop.
* `src/unnamed/part_000`, `calcularPaginasComunicado`: the layout measurer
  with its zero-width fallback chain.
* `src/unnamed/part_003`, `estimarPaginasComunicado`: the live page
  estimator.
* `src/unnamed/part_000`, `formatComunicadoContent` and `escapeHtml`: the
  content formatter.

Physical quantities (millimetres) are modelled as rationals; DOM pixel
dimensions as naturals; JavaScript exceptions as `Except`.
-/

namespace SistemaAdmin

/-- A4 page width in mm (`new jsPDF('p', 'mm', 'a4')`). -/
def pageWidth : ℚ := 210

/-- A4 page height in mm. -/
def pageHeight : ℚ := 297

/-- Page margin in mm (`const margin = 10` in `exportComunicadoPDF`). -/
def pdfMargin : ℚ := 10

/-- Usable width: `pageWidth - (margin * 2)`. -/
def usableWidth : ℚ := pageWidth - pdfMargin * 2

/-- Usable height: `pageHeight - (margin * 2)`. -/
def usableHeight : ℚ := pageHeight - pdfMargin * 2

/-- Header reserve: `headerHeightMM + 5` (5 mm gap after the header). -/
def headerSpace (headerHeightMM : ℚ) : ℚ := headerHeightMM + 5

/-- Footer reserve: `footerHeightMM + 5` (5 mm gap before the footer). -/
def footerSpace (footerHeightMM : ℚ) : ℚ := footerHeightMM + 5

/-- Body height available per page:
`usableHeight - headerSpace - footerSpace` (templates.js line 644). -/
def contentHeightPerPage (headerHeightMM footerHeightMM : ℚ) : ℚ :=
  usableHeight - headerSpace headerHeightMM - footerSpace footerHeightMM

/-- Page count: `Math.max(1, Math.ceil(bodyHeightMM / contentHeightPerPage))`
(templates.js line 647), in exact rational arithmetic. -/
def totalPages (bodyHeightMM C : ℚ) : ℤ :=
  max 1 ⌈bodyHeightMM / C⌉

/-- One output page of `exportComunicadoPDF`: the slice of the body raster
(in mm, `contentStart`/`contentEnd` of the loop), the page-counter text
stamped into the re-rendered header, whether the body portion was actually
drawn (the `contentHeightThisPage > 0` guard), and whether the footer was
composed onto this page. -/
structure PageOut where
  pageNum : ℕ
  contentStart : ℚ
  contentEnd : ℚ
  counterText : String
  bodyDrawn : Bool
  hasFooter : Bool
deriving Repr, DecidableEq, Inhabited

/-- The page-generation loop of `exportComunicadoPDF` (lines 650-727):
`bodyYPosition` starts at 0; each page takes
`contentEnd = min(bodyYPosition + contentHeightPerPage, bodyHeightMM)`,
stamps `pageNum de totalPages` into the cloned header, draws the body
portion only when its height is positive, puts the footer on the page
with `pageNum === totalPages`, and continues from `contentEnd`. -/
def pagesLoop (C h : ℚ) (total : ℕ) (footerPresent : Bool) :
    ℕ → ℚ → ℕ → List PageOut
  | _, _, 0 => []
  | pageNum, y, fuel + 1 =>
    let e : ℚ := min (y + C) h
    { pageNum := pageNum
      contentStart := y
      contentEnd := e
      counterText := toString pageNum ++ " de " ++ toString total
      bodyDrawn := decide (0 < e - y)
      hasFooter := decide (pageNum = total) && footerPresent } ::
      pagesLoop C h total footerPresent (pageNum + 1) e fuel

/-- Everything `exportComunicadoPDF` produces and does per export: the
page list, the page count, how many times each region was rasterized
(`html2canvas` call sites: body once before the loop, footer once when the
footer element exists, header once per page inside the loop), and the
output file name. -/
structure ExportResult where
  pages : List PageOut
  total : ℕ
  bodyRasterCount : ℕ
  footerRasterCount : ℕ
  headerRasterCount : ℕ
  fileName : String
deriving Repr, DecidableEq

/-- Inputs `exportComunicadoPDF` reads from the rendered document: whether
the document wrapper was found, whether the header element exists, the
measured header height (mm), the measured body height (mm), the footer
height when the footer element exists, and the record's code. -/
structure ComunicadoRender where
  wrapperFound : Bool
  headerPresent : Bool
  headerHeightMM : ℚ
  bodyHeightMM : ℚ
  footer : Option ℚ
  codigo : Option String
deriving Repr, DecidableEq

/-- Shallow embedding of `exportComunicadoPDF` (templates.js lines
480-760).  The function throws before any rasterization only when the
document wrapper is missing; it performs no page-geometry validation.
`footerHeightMM` is 0 when there is no footer element, and the footer
raster is captured exactly when the element exists. -/
def exportComunicadoPDF (r : ComunicadoRender) : Except String ExportResult :=
  if r.wrapperFound = false then
    Except.error "No se encontró el wrapper del documento"
  else
    let footerHeightMM : ℚ := (r.footer.getD 0)
    let footerPresent : Bool := r.footer.isSome
    let C : ℚ := contentHeightPerPage r.headerHeightMM footerHeightMM
    let T : ℕ := (totalPages r.bodyHeightMM C).toNat
    Except.ok
      { pages := pagesLoop C r.bodyHeightMM T footerPresent 1 0 T
        total := T
        bodyRasterCount := 1
        footerRasterCount := if footerPresent then 1 else 0
        headerRasterCount := if r.headerPresent then T else 0
        fileName := "Comunicado-" ++ r.codigo.getD "sin-codigo" ++ ".pdf" }

/-- Splitting the successful branch of `exportComunicadoPDF` out as a
function of the render inputs, for stating invariants of the produced
plan.  `exportComunicadoPDF` returns exactly this result whenever the
wrapper is found. -/
def comunicadoPlan (r : ComunicadoRender) : ExportResult :=
  let footerHeightMM : ℚ := (r.footer.getD 0)
  let footerPresent : Bool := r.footer.isSome
  let C : ℚ := contentHeightPerPage r.headerHeightMM footerHeightMM
  let T : ℕ := (totalPages r.bodyHeightMM C).toNat
  { pages := pagesLoop C r.bodyHeightMM T footerPresent 1 0 T
    total := T
    bodyRasterCount := 1
    footerRasterCount := if footerPresent then 1 else 0
    headerRasterCount := if r.headerPresent then T else 0
    fileName := "Comunicado-" ++ r.codigo.getD "sin-codigo" ++ ".pdf" }

def c2Render : ComunicadoRender :=
  { wrapperFound := true, headerPresent := true, headerHeightMM := 30,
    bodyHeightMM := 500, footer := some 20, codigo := some "CM-002" }

def c2BadRender : ComunicadoRender :=
  { wrapperFound := true, headerPresent := true, headerHeightMM := 250,
    bodyHeightMM := 40, footer := some 80, codigo := some "CM-002X" }

def c4Render : ComunicadoRender :=
  { wrapperFound := true, headerPresent := true, headerHeightMM := 40,
    bodyHeightMM := 600, footer := some 25, codigo := some "CM-004" }

def c5Render : ComunicadoRender :=
  { wrapperFound := true, headerPresent := true, headerHeightMM := 35,
    bodyHeightMM := 700, footer := some 22, codigo := some "CM-005" }

def c3Render : ComunicadoRender :=
  { wrapperFound := true, headerPresent := true, headerHeightMM := 200,
    bodyHeightMM := 50, footer := some 100, codigo := some "CM-003" }

/-- One record of the `comunicados` store as the batch exporter reads it:
the loop uses `codigo`, `tipo`, `departamento`, `titulo` and `contenido`.
`tipo` is optional because records may lack the field; the loop calls
`comunicado.tipo.toUpperCase()`, which throws a TypeError when `tipo` is
undefined. -/
structure Comunicado where
  codigo : String
  tipo : Option String
  departamento : String
  titulo : String
  contenido : String
deriving Repr, DecidableEq

/-- Body of one iteration of the batch loop of `exportComunicadosPDF`
(templates.js lines 797-877): draws the record onto a fresh jsPDF document
and saves `Comunicado-<codigo>.pdf`.  The data-dependent throwing step is
`comunicado.tipo.toUpperCase()` on a record without `tipo`. -/
def exportComunicadoItem (c : Comunicado) : Except String String :=
  match c.tipo with
  | none => Except.error
      "TypeError: Cannot read properties of undefined (reading 'toUpperCase')"
  | some _ => Except.ok ("Comunicado-" ++ c.codigo ++ ".pdf")

/-- The batch loop of `exportComunicadosPDF`: strictly sequential and with
no try/catch around the per-item body, so the first exception propagates
and stops the loop.  The value is the list of files saved before any
failure together with the propagated error, if one occurred. -/
def exportComunicadosPDF (exportItem : Comunicado → Except String String) :
    List Comunicado → List String × Option String
  | [] => ([], none)
  | c :: rest =>
    match exportItem c with
    | Except.error e => ([], some e)
    | Except.ok file =>
      let r := exportComunicadosPDF exportItem rest
      (file :: r.1, r.2)

def cbOk1 : Comunicado :=
  { codigo := "CB-1", tipo := some "interno", departamento := "ventas",
    titulo := "T1", contenido := "C1" }

def cbBad : Comunicado :=
  { codigo := "CB-2", tipo := none, departamento := "ventas",
    titulo := "T2", contenido := "C2" }

def cbOk3 : Comunicado :=
  { codigo := "CB-3", tipo := some "externo", departamento := "ventas",
    titulo := "T3", contenido := "C3" }

def cbOk4 : Comunicado :=
  { codigo := "CB-4", tipo := some "interno", departamento := "ventas",
    titulo := "T4", contenido := "C4" }

def cbOk5 : Comunicado :=
  { codigo := "CB-5", tipo := some "interno", departamento := "ventas",
    titulo := "T5", contenido := "C5" }

def batchRecords : List Comunicado := [cbOk1, cbBad, cbOk3, cbOk4, cbOk5]

/-- Pixel width used by `calcularPaginasComunicado`:
`wrapper.offsetWidth || wrapper.scrollWidth || 800` — JavaScript falsy
chaining on the nonnegative integer widths, 0 being the falsy value. -/
def wrapperWidthOf (offsetWidth scrollWidth : ℕ) : ℕ :=
  if offsetWidth ≠ 0 then offsetWidth
  else if scrollWidth ≠ 0 then scrollWidth
  else 800

/-- Scale factor of the layout measurer: `wrapperWidthMM / wrapperWidth`
with `wrapperWidthMM = 210`. -/
def calcScaleFactor (offsetWidth scrollWidth : ℕ) : ℚ :=
  210 / (wrapperWidthOf offsetWidth scrollWidth : ℚ)

/-- Page count of `calcularPaginasComunicado` (part_000 lines 722-759):
`contentHeightMM = scrollHeight * scaleFactor`, usable height per page
`297 - 20 = 277` mm, count `max(1, ceil(contentHeightMM / 277))`. -/
def calcularPaginasComunicado (offsetWidth scrollWidth scrollHeight : ℕ) : ℤ :=
  max 1 ⌈((scrollHeight : ℚ) * calcScaleFactor offsetWidth scrollWidth) / 277⌉

/-- Usable height per page assumed by the page estimator
(`297 - 80 - 30 - 20 = 167` mm: fixed header, footer and margin
estimates, part_003 lines 657-662). -/
def estUsableHeightMM : ℚ := 297 - 80 - 30 - 20

/-- Modelled from the spec: the off-screen measurement surface of the
page estimator.  `estimarPaginasComunicado` builds a hidden 800 px-wide
div (16 px font at line-height 1.8, 1.25 rem paragraph margins, 2 rem
padding) holding one `<p>` per non-blank line and reads its
`scrollHeight`; the browser layout producing that height is not part of
the repository.  Per the spec's fixed font metrics and fixed paragraph
spacing, a paragraph of `len` characters wraps into
`ceil(len / charsPerLine)` lines of `16 × 1.8 = 28.8` px followed by a
`20` px paragraph gap, inside `2 × 32` px of vertical padding.  Each
paragraph (a trimmed non-blank line of the body text) is abstracted to
its character count. -/
def measuredContentHeight (charsPerLine : ℕ) (paras : List ℕ) : ℚ :=
  64 + (paras.map (fun len =>
    (144 / 5 : ℚ) * (((len + charsPerLine - 1) / charsPerLine : ℕ) : ℚ) + 20)).sum

/-- Page estimate of `estimarPaginasComunicado` (part_003 lines 611-676):
`scaleFactor = 210 / 800`, `contentHeightMM = height * scaleFactor`, and
`totalPages = max(1, ceil(contentHeightMM / usableHeightMM))`. -/
def estimarPaginasComunicado (charsPerLine : ℕ) (paras : List ℕ) : ℤ :=
  max 1 ⌈(measuredContentHeight charsPerLine paras * (210 / 800))
    / estUsableHeightMM⌉

/-- JavaScript whitespace (the `\s` class and the characters stripped by
`String.prototype.trim`). -/
def jsWhitespace (c : Char) : Bool :=
  c == ' ' || c == '\t' || c == '\n' || c == '\r' || c == '\x0b' ||
  c == '\x0c' || c == ' ' || c == ' ' ||
  (decide (' ' ≤ c) && decide (c ≤ ' ')) ||
  c == ' ' || c == ' ' || c == ' ' || c == ' ' ||
  c == '　' || c == '﻿'

/-- `String.prototype.trim`: strip whitespace from both ends. -/
def trimChars (cs : List Char) : List Char :=
  ((cs.dropWhile jsWhitespace).reverse.dropWhile jsWhitespace).reverse

/-- Expansion of one character under `escapeHtml` (part_000 line 2048:
`div.textContent = text; return div.innerHTML` — text-node serialization
escapes `&`, `<`, `>` and the no-break space). -/
def escapeHtmlChar (c : Char) : List Char :=
  if c = '&' then "&amp;".toList
  else if c = '<' then "&lt;".toList
  else if c = '>' then "&gt;".toList
  else if c = ' ' then "&nbsp;".toList
  else [c]

/-- `escapeHtml` on a character list. -/
def escapeHtml (cs : List Char) : List Char := cs.flatMap escapeHtmlChar

/-- One character of the title regex class `[A-ZÁÉÍÓÚÑ\s]`. -/
def upperTitleChar (c : Char) : Bool :=
  (decide ('A' ≤ c) && decide (c ≤ 'Z')) || c == 'Á' || c == 'É' ||
  c == 'Í' || c == 'Ó' || c == 'Ú' || c == 'Ñ' || jsWhitespace c

/-- The test `trimmed.match(/^[A-ZÁÉÍÓÚÑ\s]+$/)`: non-empty and every
character in the class. -/
def matchesTitleRegex (cs : List Char) : Bool :=
  !cs.isEmpty && cs.all upperTitleChar

/-- The test `trimmed.match(/^ARTICULO|^ARTÍCULO/)`. -/
def startsWithArticulo (cs : List Char) : Bool :=
  List.isPrefixOf "ARTICULO".toList cs || List.isPrefixOf "ARTÍCULO".toList cs

/-- The test `trimmed.match(/^[a-z]\)\./)`: a lowercase letter followed by
a closing parenthesis and a dot. -/
def matchesListRegex (cs : List Char) : Bool :=
  match cs with
  | a :: b :: c :: _ =>
    (decide ('a' ≤ a) && decide (a ≤ 'z')) && b == ')' && c == '.'
  | _ => false

/-- One line of `formatComunicadoContent` (part_000 lines 1052-1069): the
trimmed line becomes a `<p>` with the title class when it matches the
all-caps regex or starts with ARTICULO/ARTÍCULO, and the body-paragraph
class otherwise (the list-item branch emits the same markup as the
default branch). -/
def renderLine (p : List Char) : List Char :=
  let trimmed := trimChars p
  if matchesTitleRegex trimmed || startsWithArticulo trimmed then
    "<p class=\"comunicado-paragraph-title\">".toList
      ++ escapeHtml trimmed ++ "</p>".toList
  else if matchesListRegex trimmed then
    "<p class=\"comunicado-paragraph\">".toList
      ++ escapeHtml trimmed ++ "</p>".toList
  else
    "<p class=\"comunicado-paragraph\">".toList
      ++ escapeHtml trimmed ++ "</p>".toList

/-- `formatComunicadoContent(content)`: empty output on a missing or empty
input; otherwise split on newlines, drop blank lines, and join the
rendered paragraphs. -/
def formatComunicadoContent (content : Option (List Char)) : List Char :=
  match content with
  | none => []
  | some cs =>
    if cs.isEmpty then []
    else (((cs.splitOn '\n').filter
      (fun p => !(trimChars p).isEmpty)).map renderLine).flatten

/-- Title-line predicate in the words of the claim: the line consists
entirely of uppercase letters (including the accented ÁÉÍÓÚÑ) and
whitespace, or it starts with ARTICULO or ARTÍCULO. -/
def specTitleLine (t : List Char) : Bool :=
  (!t.isEmpty && t.all (fun c =>
    (decide ('A' ≤ c) && decide (c ≤ 'Z')) || c == 'Á' || c == 'É' ||
    c == 'Í' || c == 'Ó' || c == 'Ú' || c == 'Ñ' || jsWhitespace c)) ||
  (List.isPrefixOf "ARTICULO".toList t || List.isPrefixOf "ARTÍCULO".toList t)

/-- Per-line output in the words of the claim: one `<p>` whose class is
the title class exactly when `specTitleLine` holds and the body-paragraph
class otherwise, holding the line's HTML-escaped text. -/
def specRenderLine (t : List Char) : List Char :=
  if specTitleLine t then
    "<p class=\"comunicado-paragraph-title\">".toList
      ++ escapeHtml t ++ "</p>".toList
  else
    "<p class=\"comunicado-paragraph\">".toList
      ++ escapeHtml t ++ "</p>".toList

/-- Formatter in the words of the claim: empty output for a missing or
empty input; otherwise exactly one `<p>` per non-blank line (blank and
whitespace-only lines dropped), each line trimmed, escaped and classed by
`specTitleLine`. -/
def specFormatComunicadoContent (content : Option (List Char)) : List Char :=
  match content with
  | none => []
  | some cs =>
    if cs.isEmpty then []
    else ((((cs.splitOn '\n').map trimChars).filter
      (fun t => !t.isEmpty)).map specRenderLine).flatten

theorem exportComunicadoPDF_eq_plan (r : ComunicadoRender)
    (hw : r.wrapperFound = true) :
    exportComunicadoPDF r = Except.ok (comunicadoPlan r) := by
  simp [exportComunicadoPDF, comunicadoPlan, hw]

theorem pagesLoop_length (C h : ℚ) (t : ℕ) (fp : Bool) :
    ∀ fuel p y, (pagesLoop C h t fp p y fuel).length = fuel := by
  intro fuel
  induction fuel with
  | zero => intro p y; rfl
  | succ n ih => intro p y; simpa [pagesLoop] using ih (p + 1) _

theorem min_add_min_right (C d h y : ℚ) (hd : 0 ≤ d) :
    min (min (y + C) h + d) h = min (y + C + d) h := by
  rcases le_total (y + C) h with hyc | hyc
  · rw [min_eq_left hyc]
  · have h1 : h ≤ h + d := by linarith
    have h2 : h ≤ y + C + d := by linarith
    rw [min_eq_right hyc, min_eq_right h1, min_eq_right h2]

theorem pagesLoop_getD_slice (C h : ℚ) (t : ℕ) (fp : Bool) (hC : 0 ≤ C) :
    ∀ fuel p y, y ≤ h → ∀ i, i < fuel →
      ((pagesLoop C h t fp p y fuel).getD i default).pageNum = p + i ∧
      ((pagesLoop C h t fp p y fuel).getD i default).contentStart
        = min (y + i * C) h ∧
      ((pagesLoop C h t fp p y fuel).getD i default).contentEnd
        = min (y + (i + 1) * C) h := by
  intro fuel
  induction fuel with
  | zero => intro p y _ i hi; omega
  | succ n ih =>
    intro p y hy i hi
    match i with
    | 0 =>
      refine ⟨rfl, ?_, ?_⟩
      · simp [pagesLoop, min_eq_left hy]
      · simp [pagesLoop]
    | Nat.succ j =>
      have hd : (0 : ℚ) ≤ (j : ℚ) * C := mul_nonneg (Nat.cast_nonneg j) hC
      have hd' : (0 : ℚ) ≤ ((j : ℚ) + 1) * C :=
        mul_nonneg (by positivity) hC
      have hyn : min (y + C) h ≤ h := min_le_right _ _
      obtain ⟨h1, h2, h3⟩ := ih (p + 1) (min (y + C) h) hyn j (by omega)
      have hcons : (pagesLoop C h t fp p y (n + 1)).getD (j + 1) default
          = (pagesLoop C h t fp (p + 1) (min (y + C) h) n).getD j default := by
        simp [pagesLoop]
      refine ⟨?_, ?_, ?_⟩
      · rw [hcons, h1]; omega
      · rw [hcons, h2, min_add_min_right C _ h y hd]
        congr 1
        push_cast
        ring
      · rw [hcons, h3, min_add_min_right C _ h y hd']
        congr 1
        push_cast
        ring

theorem one_le_totalPages (h C : ℚ) : 1 ≤ totalPages h C :=
  le_max_left 1 _

theorem le_totalPages_toNat_mul (h C : ℚ) (hC : 0 < C) (_hh : 0 ≤ h) :
    h ≤ (((totalPages h C).toNat : ℚ)) * C := by
  have h1 : (1 : ℤ) ≤ totalPages h C := one_le_totalPages h C
  have hcast : (((totalPages h C).toNat : ℚ)) = ((totalPages h C : ℤ) : ℚ) := by
    have h0 : (0 : ℤ) ≤ totalPages h C := by omega
    exact_mod_cast Int.toNat_of_nonneg h0
  rw [hcast]
  have hceil : h / C ≤ ((totalPages h C : ℤ) : ℚ) := by
    calc h / C ≤ (⌈h / C⌉ : ℚ) := Int.le_ceil _
    _ ≤ ((totalPages h C : ℤ) : ℚ) := by
        have : ⌈h / C⌉ ≤ totalPages h C := le_max_right 1 _
        exact_mod_cast this
  calc h = h / C * C := by field_simp
  _ ≤ ((totalPages h C : ℤ) : ℚ) * C :=
      mul_le_mul_of_nonneg_right hceil (le_of_lt hC)

/-- C1: for body height `h ≥ 0` and `contentHeightPerPage = C > 0`, the
paginator computes `totalPages = max(1, ceil(h / C))`; `totalPages` is
monotonically non-decreasing in `h`; and `h = 0` yields exactly one page
(also as the length of the generated page list). -/
theorem c1_page_count_formula (h C : ℚ) (_hh : 0 ≤ h) (hC : 0 < C) :
    totalPages h C = max 1 ⌈h / C⌉ ∧
    (∀ h₂ : ℚ, h ≤ h₂ → totalPages h C ≤ totalPages h₂ C) ∧
    totalPages 0 C = 1 ∧
    (∀ fp : Bool,
      (pagesLoop C 0 (totalPages 0 C).toNat fp 1 0 (totalPages 0 C).toNat).length
        = 1) := by
  have h0 : totalPages 0 C = 1 := by
    have : (0 : ℚ) / C = 0 := zero_div C
    simp [totalPages, this]
  refine ⟨rfl, ?_, h0, ?_⟩
  · intro h₂ hle
    have hdiv : h / C ≤ h₂ / C := by gcongr
    exact max_le_max (le_refl 1) (Int.ceil_mono hdiv)
  · intro fp
    rw [pagesLoop_length C 0 _ fp _ 1 0, h0]
    rfl

theorem c1_page_count_formula_witness :
    (0 : ℚ) ≤ 100 ∧ (0 : ℚ) < 167 ∧
    (totalPages 100 167 = max 1 ⌈(100 : ℚ) / 167⌉ ∧
      (∀ h₂ : ℚ, (100 : ℚ) ≤ h₂ → totalPages 100 167 ≤ totalPages h₂ 167) ∧
      totalPages 0 167 = 1 ∧
      (∀ fp : Bool,
        (pagesLoop 167 0 (totalPages 0 167).toNat fp 1 0
          (totalPages 0 167).toNat).length = 1)) :=
  ⟨by norm_num, by norm_num, c1_page_count_formula 100 167 (by norm_num) (by norm_num)⟩

/-- C7: a body height exactly `3 × contentHeightPerPage` (with the latter
positive) gives exactly 3 pages, not 4: no off-by-one at an exact
multiple, in exact rational arithmetic. -/
theorem c7_exact_boundary (C : ℚ) (hC : 0 < C) : totalPages (3 * C) C = 3 := by
  unfold totalPages
  rw [mul_div_assoc, div_self (ne_of_gt hC), mul_one]
  norm_num

theorem c7_exact_boundary_witness :
    (0 : ℚ) < 167 ∧ totalPages (3 * 167) 167 = 3 :=
  ⟨by norm_num, c7_exact_boundary 167 (by norm_num)⟩

theorem pagesPlan_contiguity (C h : ℚ) (fp : Bool) (hC : 0 < C) (hh : 0 ≤ h) :
    (pagesLoop C h (totalPages h C).toNat fp 1 0 (totalPages h C).toNat).length
      = (totalPages h C).toNat ∧
    1 ≤ (totalPages h C).toNat ∧
    (((pagesLoop C h (totalPages h C).toNat fp 1 0 (totalPages h C).toNat).getD 0
        default).contentStart = 0) ∧
    (∀ i, i + 1 < (totalPages h C).toNat →
      ((pagesLoop C h (totalPages h C).toNat fp 1 0 (totalPages h C).toNat).getD i
          default).contentEnd
        = ((pagesLoop C h (totalPages h C).toNat fp 1 0 (totalPages h C).toNat).getD
            (i + 1) default).contentStart) ∧
    (((pagesLoop C h (totalPages h C).toNat fp 1 0 (totalPages h C).toNat).getD
        ((totalPages h C).toNat - 1) default).contentEnd = h) := by
  have hT1 : 1 ≤ (totalPages h C).toNat := by
    have := one_le_totalPages h C
    omega
  have hslice := pagesLoop_getD_slice C h (totalPages h C).toNat fp (le_of_lt hC)
      (totalPages h C).toNat 1 0 hh
  refine ⟨pagesLoop_length C h _ fp _ 1 0, hT1, ?_, ?_, ?_⟩
  · obtain ⟨-, h2, -⟩ := hslice 0 (by omega)
    rw [h2]
    simpa using min_eq_left hh
  · intro i hi
    obtain ⟨-, -, h3⟩ := hslice i (by omega)
    obtain ⟨-, h2', -⟩ := hslice (i + 1) (by omega)
    rw [h3, h2']
    congr 1
    push_cast
    ring
  · obtain ⟨-, -, h3⟩ := hslice ((totalPages h C).toNat - 1) (by omega)
    rw [h3]
    have hTT : (((totalPages h C).toNat - 1 : ℕ) : ℚ) + 1
        = (((totalPages h C).toNat : ℕ) : ℚ) := by
      have h' : ((totalPages h C).toNat - 1) + 1 = (totalPages h C).toNat := by omega
      exact_mod_cast congrArg (Nat.cast (R := ℚ)) h'
    rw [zero_add, hTT]
    exact min_eq_right (le_totalPages_toNat_mul h C hC hh)

/-- C2 fails on the code as stated over every produced plan: with a
250 mm header and an 80 mm footer, `contentHeightPerPage = -63 < 0`, yet
`exportComunicadoPDF` still produces a plan (it performs no geometry
validation), and that plan's last slice ends at `-63`, not at the body
height `40` — the slices do not cover the body raster. -/
theorem c2_counterexample :
    exportComunicadoPDF c2BadRender = Except.ok (comunicadoPlan c2BadRender) ∧
    (comunicadoPlan c2BadRender).pages.length = 1 ∧
    ((comunicadoPlan c2BadRender).pages.getD
        ((comunicadoPlan c2BadRender).pages.length - 1) default).contentEnd
      = -63 ∧
    c2BadRender.bodyHeightMM = 40 ∧
    ((comunicadoPlan c2BadRender).pages.getD
        ((comunicadoPlan c2BadRender).pages.length - 1) default).contentEnd
      ≠ c2BadRender.bodyHeightMM := by
  have hC : contentHeightPerPage (250 : ℚ) 80 = -63 := by
    norm_num [contentHeightPerPage, headerSpace, footerSpace, usableHeight,
      pageHeight, pdfMargin]
  have hceil : (⌈(40 : ℚ) / (-63)⌉ : ℤ) = 0 := by
    rw [Int.ceil_eq_iff]
    norm_num
  have hT : (totalPages 40 (-63 : ℚ)).toNat = 1 := by
    unfold totalPages
    rw [hceil]
    decide
  have hmin : min ((0 : ℚ) + -63) 40 = -63 := by norm_num
  have hdec : (decide ((0 : ℚ) < min ((0 : ℚ) + -63) 40 - 0)) = false := by
    rw [hmin]
    norm_num
  have hpl : pagesLoop (-63 : ℚ) 40 1 true 1 0 1
      = [{ pageNum := 1, contentStart := 0, contentEnd := -63,
           counterText := "1 de 1", bodyDrawn := false,
           hasFooter := true }] := by
    rw [pagesLoop, pagesLoop]
    rw [List.cons.injEq]
    refine ⟨?_, rfl⟩
    rw [PageOut.mk.injEq]
    exact ⟨rfl, rfl, hmin, rfl, hdec, rfl⟩
  have hplan : comunicadoPlan c2BadRender
      = { pages := [{ pageNum := 1, contentStart := 0, contentEnd := -63,
                      counterText := "1 de 1", bodyDrawn := false,
                      hasFooter := true }],
          total := 1, bodyRasterCount := 1, footerRasterCount := 1,
          headerRasterCount := 1,
          fileName := "Comunicado-CM-002X.pdf" } := by
    rw [comunicadoPlan]
    simp only [c2BadRender, Option.getD, Option.isSome]
    rw [hC, hT, hpl]
    rfl
  refine ⟨exportComunicadoPDF_eq_plan c2BadRender rfl, ?_, ?_, rfl, ?_⟩
  · rw [hplan]
    rfl
  · rw [hplan]
    rfl
  · rw [hplan]
    show (-63 : ℚ) ≠ c2BadRender.bodyHeightMM
    norm_num [c2BadRender]

/-- C2 amended: for every plan produced by `exportComunicadoPDF` with
valid geometry (`contentHeightPerPage > 0`, body height `≥ 0` — the
geometry is never validated, so plans with a negative
`contentHeightPerPage` are reachable and break coverage): the first slice
starts at 0, each slice's end equals the next slice's start, and the last
slice ends at the full body height, so the slices are contiguous,
non-overlapping and cover the whole body. -/
theorem c2_slice_contiguity (r : ComunicadoRender)
    (hC : 0 < contentHeightPerPage r.headerHeightMM (r.footer.getD 0))
    (hh : 0 ≤ r.bodyHeightMM) :
    ((comunicadoPlan r).pages.getD 0 default).contentStart = 0 ∧
    (∀ i, i + 1 < (comunicadoPlan r).pages.length →
      ((comunicadoPlan r).pages.getD i default).contentEnd
        = ((comunicadoPlan r).pages.getD (i + 1) default).contentStart) ∧
    ((comunicadoPlan r).pages.getD ((comunicadoPlan r).pages.length - 1)
        default).contentEnd = r.bodyHeightMM ∧
    (comunicadoPlan r).pages.length = (comunicadoPlan r).total ∧
    1 ≤ (comunicadoPlan r).total := by
  obtain ⟨hlen, hT1, hfirst, hadj, hlast⟩ :=
    pagesPlan_contiguity (contentHeightPerPage r.headerHeightMM (r.footer.getD 0))
      r.bodyHeightMM r.footer.isSome hC hh
  have hpages : (comunicadoPlan r).pages
      = pagesLoop (contentHeightPerPage r.headerHeightMM (r.footer.getD 0))
          r.bodyHeightMM
          (totalPages r.bodyHeightMM
            (contentHeightPerPage r.headerHeightMM (r.footer.getD 0))).toNat
          r.footer.isSome 1 0
          (totalPages r.bodyHeightMM
            (contentHeightPerPage r.headerHeightMM (r.footer.getD 0))).toNat := rfl
  have htot : (comunicadoPlan r).total
      = (totalPages r.bodyHeightMM
          (contentHeightPerPage r.headerHeightMM (r.footer.getD 0))).toNat := rfl
  rw [hpages, htot, hlen]
  exact ⟨hfirst, hadj, hlast, rfl, hT1⟩

theorem c2_slice_contiguity_witness :
    0 < contentHeightPerPage c2Render.headerHeightMM (c2Render.footer.getD 0) ∧
    (0 : ℚ) ≤ c2Render.bodyHeightMM ∧
    (((comunicadoPlan c2Render).pages.getD 0 default).contentStart = 0 ∧
      (∀ i, i + 1 < (comunicadoPlan c2Render).pages.length →
        ((comunicadoPlan c2Render).pages.getD i default).contentEnd
          = ((comunicadoPlan c2Render).pages.getD (i + 1) default).contentStart) ∧
      ((comunicadoPlan c2Render).pages.getD
          ((comunicadoPlan c2Render).pages.length - 1) default).contentEnd
        = c2Render.bodyHeightMM ∧
      (comunicadoPlan c2Render).pages.length = (comunicadoPlan c2Render).total ∧
      1 ≤ (comunicadoPlan c2Render).total) :=
  ⟨by norm_num [c2Render, contentHeightPerPage, headerSpace, footerSpace,
      usableHeight, pageHeight, pdfMargin],
    by norm_num [c2Render],
    c2_slice_contiguity c2Render
      (by norm_num [c2Render, contentHeightPerPage, headerSpace, footerSpace,
        usableHeight, pageHeight, pdfMargin])
      (by norm_num [c2Render])⟩

theorem pagesLoop_mem_fields (C h : ℚ) (t : ℕ) (fp : Bool) :
    ∀ fuel p y, ∀ el ∈ pagesLoop C h t fp p y fuel,
      el.counterText = toString el.pageNum ++ " de " ++ toString t ∧
      el.hasFooter = (decide (el.pageNum = t) && fp) ∧
      p ≤ el.pageNum ∧ el.pageNum < p + fuel := by
  intro fuel
  induction fuel with
  | zero => intro p y el hel; simp [pagesLoop] at hel
  | succ n ih =>
    intro p y el hel
    rw [pagesLoop] at hel
    rcases List.mem_cons.mp hel with rfl | htail
    · refine ⟨rfl, rfl, le_refl _, ?_⟩
      show p < p + (n + 1)
      omega
    · obtain ⟨h1, h2, h3, h4⟩ := ih (p + 1) _ el htail
      exact ⟨h1, h2, by omega, by omega⟩

theorem pagesLoop_getD_pageNum (C h : ℚ) (t : ℕ) (fp : Bool) :
    ∀ fuel p y, ∀ i, i < fuel →
      ((pagesLoop C h t fp p y fuel).getD i default).pageNum = p + i := by
  intro fuel
  induction fuel with
  | zero => intro p y i hi; omega
  | succ n ih =>
    intro p y i hi
    match i with
    | 0 => rfl
    | Nat.succ j =>
      have : (pagesLoop C h t fp p y (n + 1)).getD (j + 1) default
          = (pagesLoop C h t fp (p + 1) (min (y + C) h) n).getD j default := by
        simp [pagesLoop]
      rw [this, ih (p + 1) _ j (by omega)]
      omega

theorem pagesLoop_countP_footer (C h : ℚ) (t : ℕ) (fp : Bool) :
    ∀ fuel p y, (pagesLoop C h t fp p y fuel).countP (·.hasFooter)
      = if fp = true ∧ p ≤ t ∧ t < p + fuel then 1 else 0 := by
  intro fuel
  induction fuel with
  | zero =>
    intro p y
    rw [if_neg]
    · rfl
    · rintro ⟨-, h1, h2⟩; omega
  | succ n ih =>
    intro p y
    rw [pagesLoop, List.countP_cons, ih (p + 1) (min (y + C) h)]
    cases fp with
    | false => simp
    | true =>
      simp
      split_ifs <;> omega

theorem getD_mem_of_lt {l : List PageOut} {i : ℕ} (hi : i < l.length) :
    l.getD i default ∈ l := by
  rw [List.getD_eq_getElem l default hi]
  exact List.getElem_mem hi

theorem pagesPlan_footer (C h : ℚ) (T : ℕ) (hT1 : 1 ≤ T) :
    ((pagesLoop C h T true 1 0 T).countP (·.hasFooter)) = 1 ∧
    (∀ el ∈ pagesLoop C h T true 1 0 T,
      (el.hasFooter = true ↔ el.pageNum = T)) ∧
    (((pagesLoop C h T true 1 0 T).getD
        ((pagesLoop C h T true 1 0 T).length - 1) default).hasFooter = true) := by
  have hlen : (pagesLoop C h T true 1 0 T).length = T :=
    pagesLoop_length C h T true T 1 0
  refine ⟨?_, ?_, ?_⟩
  · rw [pagesLoop_countP_footer C h T true T 1 0,
      if_pos ⟨rfl, hT1, by omega⟩]
  · intro el hel
    obtain ⟨-, h2, -, -⟩ := pagesLoop_mem_fields C h T true T 1 0 el hel
    rw [h2]
    simp
  · rw [hlen]
    have hmem := getD_mem_of_lt (l := pagesLoop C h T true 1 0 T)
      (i := T - 1) (by rw [hlen]; omega)
    obtain ⟨-, h2, -, -⟩ := pagesLoop_mem_fields C h T true T 1 0 _ hmem
    have hpn := pagesLoop_getD_pageNum C h T true T 1 0 (T - 1) (by omega)
    rw [h2, hpn]
    simp only [Bool.and_true, decide_eq_true_eq]
    omega

/-- C4: with a footer element present, exactly one output page has the
footer composed onto it, namely the last one (`pageNum = totalPages`),
and no other page includes it. -/
theorem c4_footer_only_last (r : ComunicadoRender)
    (hf : r.footer.isSome = true) :
    ((comunicadoPlan r).pages.countP (·.hasFooter)) = 1 ∧
    (∀ el ∈ (comunicadoPlan r).pages,
      (el.hasFooter = true ↔ el.pageNum = (comunicadoPlan r).total)) ∧
    (((comunicadoPlan r).pages.getD ((comunicadoPlan r).pages.length - 1)
        default).hasFooter = true) := by
  have hT1 : 1 ≤ (totalPages r.bodyHeightMM
      (contentHeightPerPage r.headerHeightMM (r.footer.getD 0))).toNat := by
    have := one_le_totalPages r.bodyHeightMM
      (contentHeightPerPage r.headerHeightMM (r.footer.getD 0))
    omega
  have hpages : (comunicadoPlan r).pages
      = pagesLoop (contentHeightPerPage r.headerHeightMM (r.footer.getD 0))
          r.bodyHeightMM
          (totalPages r.bodyHeightMM
            (contentHeightPerPage r.headerHeightMM (r.footer.getD 0))).toNat
          r.footer.isSome 1 0
          (totalPages r.bodyHeightMM
            (contentHeightPerPage r.headerHeightMM (r.footer.getD 0))).toNat := rfl
  have htot : (comunicadoPlan r).total
      = (totalPages r.bodyHeightMM
          (contentHeightPerPage r.headerHeightMM (r.footer.getD 0))).toNat := rfl
  rw [hpages, htot, hf]
  exact pagesPlan_footer _ _ _ hT1

theorem c4_footer_only_last_witness :
    c4Render.footer.isSome = true ∧
    (((comunicadoPlan c4Render).pages.countP (·.hasFooter)) = 1 ∧
      (∀ el ∈ (comunicadoPlan c4Render).pages,
        (el.hasFooter = true ↔ el.pageNum = (comunicadoPlan c4Render).total)) ∧
      (((comunicadoPlan c4Render).pages.getD
          ((comunicadoPlan c4Render).pages.length - 1) default).hasFooter = true)) :=
  ⟨rfl, c4_footer_only_last c4Render rfl⟩

theorem comunicadoPlan_pages (r : ComunicadoRender) :
    (comunicadoPlan r).pages
      = pagesLoop (contentHeightPerPage r.headerHeightMM (r.footer.getD 0))
          r.bodyHeightMM
          (totalPages r.bodyHeightMM
            (contentHeightPerPage r.headerHeightMM (r.footer.getD 0))).toNat
          r.footer.isSome 1 0
          (totalPages r.bodyHeightMM
            (contentHeightPerPage r.headerHeightMM (r.footer.getD 0))).toNat := rfl

theorem comunicadoPlan_total (r : ComunicadoRender) :
    (comunicadoPlan r).total
      = (totalPages r.bodyHeightMM
          (contentHeightPerPage r.headerHeightMM (r.footer.getD 0))).toNat := rfl

theorem pagesPlan_counter (C h : ℚ) (T : ℕ) (fp : Bool) (hT1 : 1 ≤ T) :
    (∀ el ∈ pagesLoop C h T fp 1 0 T,
      el.counterText = toString el.pageNum ++ " de " ++ toString T) ∧
    ((pagesLoop C h T fp 1 0 T).getD 0 default).counterText
      = "1 de " ++ toString T := by
  refine ⟨?_, ?_⟩
  · intro el hel
    exact (pagesLoop_mem_fields C h T fp T 1 0 el hel).1
  · have hmem := getD_mem_of_lt (l := pagesLoop C h T fp 1 0 T) (i := 0)
      (by rw [pagesLoop_length C h T fp T 1 0]; omega)
    have h1 := (pagesLoop_mem_fields C h T fp T 1 0 _ hmem).1
    have hpn := pagesLoop_getD_pageNum C h T fp T 1 0 0 (by omega)
    rw [h1, hpn]
    rfl

/-- C5: every page's header is re-rendered with its page counter set to
the text of `pageNum de totalPages`; page 1 carries `1 de totalPages`;
the header is re-rasterized once per page while the body and footer
rasters are produced at most once per export. -/
theorem c5_header_per_page (r : ComunicadoRender)
    (hp : r.headerPresent = true) :
    (∀ el ∈ (comunicadoPlan r).pages,
      el.counterText
        = toString el.pageNum ++ " de " ++ toString (comunicadoPlan r).total) ∧
    ((comunicadoPlan r).pages.getD 0 default).counterText
      = "1 de " ++ toString (comunicadoPlan r).total ∧
    (comunicadoPlan r).headerRasterCount = (comunicadoPlan r).total ∧
    (comunicadoPlan r).bodyRasterCount = 1 ∧
    (comunicadoPlan r).footerRasterCount ≤ 1 := by
  have hT1 : 1 ≤ (totalPages r.bodyHeightMM
      (contentHeightPerPage r.headerHeightMM (r.footer.getD 0))).toNat := by
    have := one_le_totalPages r.bodyHeightMM
      (contentHeightPerPage r.headerHeightMM (r.footer.getD 0))
    omega
  obtain ⟨hall, hfirst⟩ := pagesPlan_counter
    (contentHeightPerPage r.headerHeightMM (r.footer.getD 0)) r.bodyHeightMM
    (totalPages r.bodyHeightMM
      (contentHeightPerPage r.headerHeightMM (r.footer.getD 0))).toNat
    r.footer.isSome hT1
  refine ⟨?_, ?_, ?_, rfl, ?_⟩
  · rw [comunicadoPlan_pages, comunicadoPlan_total]
    exact hall
  · rw [comunicadoPlan_pages, comunicadoPlan_total]
    exact hfirst
  · have hh : (comunicadoPlan r).headerRasterCount
        = if r.headerPresent then
            (totalPages r.bodyHeightMM
              (contentHeightPerPage r.headerHeightMM (r.footer.getD 0))).toNat
          else 0 := rfl
    rw [hh, hp, if_pos rfl, comunicadoPlan_total]
  · have hf : (comunicadoPlan r).footerRasterCount
        = if r.footer.isSome then 1 else 0 := rfl
    rw [hf]
    split <;> omega

theorem c5_header_per_page_witness :
    c5Render.headerPresent = true ∧
    ((∀ el ∈ (comunicadoPlan c5Render).pages,
      el.counterText
        = toString el.pageNum ++ " de " ++ toString (comunicadoPlan c5Render).total) ∧
    ((comunicadoPlan c5Render).pages.getD 0 default).counterText
      = "1 de " ++ toString (comunicadoPlan c5Render).total ∧
    (comunicadoPlan c5Render).headerRasterCount = (comunicadoPlan c5Render).total ∧
    (comunicadoPlan c5Render).bodyRasterCount = 1 ∧
    (comunicadoPlan c5Render).footerRasterCount ≤ 1) :=
  ⟨rfl, c5_header_per_page c5Render rfl⟩

theorem pagesLoop_bodyDrawn_false (C h : ℚ) (t : ℕ) (fp : Bool) (hC : C < 0) :
    ∀ fuel p y, ∀ el ∈ pagesLoop C h t fp p y fuel, el.bodyDrawn = false := by
  intro fuel
  induction fuel with
  | zero => intro p y el hel; simp [pagesLoop] at hel
  | succ n ih =>
    intro p y el hel
    rw [pagesLoop] at hel
    rcases List.mem_cons.mp hel with rfl | htail
    · show decide (0 < min (y + C) h - y) = false
      simp only [decide_eq_false_iff_not, not_lt]
      have : min (y + C) h ≤ y + C := min_le_left _ _
      linarith
    · exact ih (p + 1) _ el htail

/-- C3 fails on the code: `exportComunicadoPDF` performs no page-geometry
validation at all.  With a 200 mm header and a 100 mm footer,
`contentHeightPerPage = 277 - 205 - 105 = -33 < 0`, yet the export is not
rejected: it succeeds (after rasterizing header, body and footer — the
raster counts are all nonzero) and emits one page whose slice has
negative height (`contentEnd = -33 < contentStart = 0`). -/
theorem c3_counterexample :
    contentHeightPerPage (200 : ℚ) 100 < 0 ∧
    exportComunicadoPDF c3Render = Except.ok
      { pages := [{ pageNum := 1, contentStart := 0, contentEnd := -33,
                    counterText := "1 de 1", bodyDrawn := false,
                    hasFooter := true }],
        total := 1, bodyRasterCount := 1, footerRasterCount := 1,
        headerRasterCount := 1,
        fileName := "Comunicado-CM-003.pdf" } := by
  have hC : contentHeightPerPage (200 : ℚ) 100 = -33 := by
    norm_num [contentHeightPerPage, headerSpace, footerSpace, usableHeight,
      pageHeight, pdfMargin]
  have hceil : (⌈(50 : ℚ) / (-33)⌉ : ℤ) = -1 := by
    rw [Int.ceil_eq_iff]
    norm_num
  have hT : (totalPages 50 (-33 : ℚ)).toNat = 1 := by
    unfold totalPages
    rw [hceil]
    decide
  have hmin : min ((0 : ℚ) + -33) 50 = -33 := by norm_num
  have hdec : (decide ((0 : ℚ) < min ((0 : ℚ) + -33) 50 - 0)) = false := by
    rw [hmin]
    norm_num
  have hpl : pagesLoop (-33 : ℚ) 50 1 true 1 0 1
      = [{ pageNum := 1, contentStart := 0, contentEnd := -33,
           counterText := "1 de 1", bodyDrawn := false,
           hasFooter := true }] := by
    rw [pagesLoop, pagesLoop]
    rw [List.cons.injEq]
    refine ⟨?_, rfl⟩
    rw [PageOut.mk.injEq]
    exact ⟨rfl, rfl, hmin, rfl, hdec, rfl⟩
  refine ⟨by rw [hC]; norm_num, ?_⟩
  rw [exportComunicadoPDF_eq_plan c3Render rfl]
  rw [comunicadoPlan]
  simp only [c3Render, Option.getD, Option.isSome]
  rw [hC, hT, hpl]
  rfl

/-- C3 amended: when `contentHeightPerPage < 0` (header plus footer
reserves exceed the usable height) the export is not rejected — there is
no geometry validation and rasterization still happens — but the computed
page count collapses to 1 and the body-composition guard
(`contentHeightThisPage > 0`) keeps the single negative-height slice from
being drawn. -/
theorem c3_amended_no_geometry_check (r : ComunicadoRender)
    (hw : r.wrapperFound = true)
    (hC : contentHeightPerPage r.headerHeightMM (r.footer.getD 0) < 0)
    (hh : 0 ≤ r.bodyHeightMM) :
    exportComunicadoPDF r = Except.ok (comunicadoPlan r) ∧
    (comunicadoPlan r).total = 1 ∧
    (comunicadoPlan r).pages.length = 1 ∧
    (comunicadoPlan r).bodyRasterCount = 1 ∧
    (∀ el ∈ (comunicadoPlan r).pages, el.bodyDrawn = false) := by
  have hdiv : r.bodyHeightMM / contentHeightPerPage r.headerHeightMM (r.footer.getD 0) ≤ 0 := by
    rw [div_nonpos_iff]
    left
    exact ⟨hh, le_of_lt hC⟩
  have hceil : ⌈r.bodyHeightMM / contentHeightPerPage r.headerHeightMM (r.footer.getD 0)⌉ ≤ 0 :=
    Int.ceil_le.mpr (by exact_mod_cast hdiv)
  have hTP : totalPages r.bodyHeightMM
      (contentHeightPerPage r.headerHeightMM (r.footer.getD 0)) = 1 := by
    unfold totalPages
    omega
  have hT : (totalPages r.bodyHeightMM
      (contentHeightPerPage r.headerHeightMM (r.footer.getD 0))).toNat = 1 := by
    rw [hTP]
    rfl
  refine ⟨exportComunicadoPDF_eq_plan r hw, ?_, ?_, rfl, ?_⟩
  · rw [comunicadoPlan_total, hT]
  · rw [comunicadoPlan_pages, hT, pagesLoop_length _ _ _ _ 1 1 0]
  · intro el hel
    rw [comunicadoPlan_pages] at hel
    exact pagesLoop_bodyDrawn_false _ _ _ _ hC _ 1 0 el hel

theorem c3_amended_no_geometry_check_witness :
    c3Render.wrapperFound = true ∧
    contentHeightPerPage c3Render.headerHeightMM (c3Render.footer.getD 0) < 0 ∧
    (0 : ℚ) ≤ c3Render.bodyHeightMM ∧
    (exportComunicadoPDF c3Render = Except.ok (comunicadoPlan c3Render) ∧
      (comunicadoPlan c3Render).total = 1 ∧
      (comunicadoPlan c3Render).pages.length = 1 ∧
      (comunicadoPlan c3Render).bodyRasterCount = 1 ∧
      (∀ el ∈ (comunicadoPlan c3Render).pages, el.bodyDrawn = false)) :=
  ⟨rfl,
    by norm_num [c3Render, contentHeightPerPage, headerSpace, footerSpace,
      usableHeight, pageHeight, pdfMargin],
    by norm_num [c3Render],
    c3_amended_no_geometry_check c3Render rfl
      (by norm_num [c3Render, contentHeightPerPage, headerSpace, footerSpace,
        usableHeight, pageHeight, pdfMargin])
      (by norm_num [c3Render])⟩

/-- C6 fails on the code: the batch loop has no per-item error handling.
In a batch of 5 records where the second one throws (missing `tipo`),
only the first record's file is saved — the remaining 3 non-failing
records produce nothing — and the propagated error is the bare TypeError,
not a report naming the failed record's `codigo`. -/
theorem c6_counterexample :
    batchRecords.length = 5 ∧
    (exportComunicadosPDF exportComunicadoItem batchRecords).1
      = ["Comunicado-CB-1.pdf"] ∧
    (exportComunicadosPDF exportComunicadoItem batchRecords).2
      = some "TypeError: Cannot read properties of undefined (reading 'toUpperCase')" ∧
    (exportComunicadosPDF exportComunicadoItem batchRecords).1.length ≠ 4 :=
  ⟨rfl, rfl, rfl, by decide⟩

/-- C6 amended: the failure of one item aborts the rest of the batch.  If
every record before the failing one exports successfully and the failing
one throws, exactly the records before it produce output files and the
error propagates as a single uncaught exception (which does not identify
the record). -/
theorem c6_amended_batch_aborts (f : Comunicado → Except String String)
    (pre post : List Comunicado) (c : Comunicado) (e : String)
    (hpre : ∀ x ∈ pre, (f x).isOk = true) (hc : f c = Except.error e) :
    (exportComunicadosPDF f (pre ++ c :: post)).1.length = pre.length ∧
    (exportComunicadosPDF f (pre ++ c :: post)).2 = some e := by
  induction pre with
  | nil =>
    simp [exportComunicadosPDF, hc]
  | cons x xs ih =>
    have hx : (f x).isOk = true := hpre x (List.mem_cons_self x xs)
    obtain ⟨v, hv⟩ : ∃ v, f x = Except.ok v := by
      cases hfx : f x with
      | error err => rw [hfx] at hx; simp [Except.isOk, Except.toBool] at hx
      | ok v => exact ⟨v, rfl⟩
    have hxs : ∀ y ∈ xs, (f y).isOk = true := fun y hy =>
      hpre y (List.mem_cons_of_mem x hy)
    obtain ⟨ih1, ih2⟩ := ih hxs
    rw [List.cons_append]
    show ((exportComunicadosPDF f ((x :: (xs ++ c :: post)))).1.length = xs.length + 1)
      ∧ (exportComunicadosPDF f ((x :: (xs ++ c :: post)))).2 = some e
    rw [exportComunicadosPDF, hv]
    exact ⟨by simpa using ih1, ih2⟩

theorem c6_amended_batch_aborts_witness :
    (∀ x ∈ [cbOk1], (exportComunicadoItem x).isOk = true) ∧
    exportComunicadoItem cbBad
      = Except.error
          "TypeError: Cannot read properties of undefined (reading 'toUpperCase')" ∧
    ((exportComunicadosPDF exportComunicadoItem
        ([cbOk1] ++ cbBad :: [cbOk3])).1.length = [cbOk1].length ∧
      (exportComunicadosPDF exportComunicadoItem
        ([cbOk1] ++ cbBad :: [cbOk3])).2
      = some "TypeError: Cannot read properties of undefined (reading 'toUpperCase')") :=
  ⟨by decide, rfl,
    c6_amended_batch_aborts exportComunicadoItem [cbOk1] [cbOk3] cbBad _
      (by decide) rfl⟩

/-- C8: the measurer's divisor can never be zero — the width falls back
from `offsetWidth` to `scrollWidth` to the default 800 whenever the
surface reports zero width — so the scale factor is positive and defined,
and the resulting page count is always at least 1. -/
theorem c8_zero_width_fallback (offsetWidth scrollWidth scrollHeight : ℕ) :
    0 < wrapperWidthOf offsetWidth scrollWidth ∧
    0 < calcScaleFactor offsetWidth scrollWidth ∧
    (offsetWidth ≠ 0 → wrapperWidthOf offsetWidth scrollWidth = offsetWidth) ∧
    (offsetWidth = 0 → scrollWidth ≠ 0 →
      wrapperWidthOf offsetWidth scrollWidth = scrollWidth) ∧
    (offsetWidth = 0 → scrollWidth = 0 →
      wrapperWidthOf offsetWidth scrollWidth = 800) ∧
    1 ≤ calcularPaginasComunicado offsetWidth scrollWidth scrollHeight := by
  have hw : 0 < wrapperWidthOf offsetWidth scrollWidth := by
    unfold wrapperWidthOf
    split_ifs <;> omega
  refine ⟨hw, ?_, ?_, ?_, ?_, le_max_left 1 _⟩
  · unfold calcScaleFactor
    apply div_pos (by norm_num)
    exact_mod_cast hw
  · intro h
    unfold wrapperWidthOf
    rw [if_pos h]
  · intro h1 h2
    unfold wrapperWidthOf
    rw [if_neg (by omega), if_pos h2]
  · intro h1 h2
    unfold wrapperWidthOf
    rw [if_neg (by omega), if_neg (by omega)]

/-- C9 fails: with the same paragraph count (20) and a smaller total text
length (970 vs 1000 characters), a text that distributes its characters
so that more lines wrap (19 paragraphs of 51 characters plus one of 1,
at 50 characters per line) measures taller than 20 paragraphs of exactly
50 characters, and gets a strictly larger page estimate (3 vs 2).  The
estimate is therefore not monotone in total text length at fixed
paragraph count. -/
theorem c9_counterexample :
    (List.replicate 20 50 : List ℕ).length
      = (List.replicate 19 51 ++ [1] : List ℕ).length ∧
    ((List.replicate 19 51 ++ [1] : List ℕ).sum
      ≤ (List.replicate 20 50 : List ℕ).sum) ∧
    estimarPaginasComunicado 50 (List.replicate 20 50) = 2 ∧
    estimarPaginasComunicado 50 (List.replicate 19 51 ++ [1]) = 3 ∧
    estimarPaginasComunicado 50 (List.replicate 20 50)
      < estimarPaginasComunicado 50 (List.replicate 19 51 ++ [1]) := by
  have hA : measuredContentHeight 50 (List.replicate 20 50) = 1040 := by
    simp [measuredContentHeight, List.map_replicate, List.sum_replicate]
    norm_num
  have hB : measuredContentHeight 50 (List.replicate 19 51 ++ [1]) = 7936 / 5 := by
    simp [measuredContentHeight, List.map_replicate, List.sum_replicate,
      List.sum_append]
    norm_num
  have hcA : estimarPaginasComunicado 50 (List.replicate 20 50) = 2 := by
    unfold estimarPaginasComunicado
    rw [hA]
    have hq : ((1040 : ℚ) * (210 / 800)) / estUsableHeightMM = 273 / 167 := by
      norm_num [estUsableHeightMM]
    rw [hq]
    rw [show (⌈(273 : ℚ) / 167⌉ : ℤ) = 2 by rw [Int.ceil_eq_iff]; norm_num]
    norm_num
  have hcB : estimarPaginasComunicado 50 (List.replicate 19 51 ++ [1]) = 3 := by
    unfold estimarPaginasComunicado
    rw [hB]
    have hq : ((7936 / 5 : ℚ) * (210 / 800)) / estUsableHeightMM
        = 10416 / 4175 := by
      norm_num [estUsableHeightMM]
    rw [hq]
    rw [show (⌈(10416 : ℚ) / 4175⌉ : ℤ) = 3 by rw [Int.ceil_eq_iff]; norm_num]
    norm_num
  refine ⟨by simp, by simp [List.sum_replicate, List.sum_append], hcA, hcB, ?_⟩
  rw [hcA, hcB]
  norm_num

theorem sum_map_mono_of_forall₂ (f : ℕ → ℚ) (hf : Monotone f) :
    ∀ {A B : List ℕ}, List.Forall₂ (· ≤ ·) A B → (A.map f).sum ≤ (B.map f).sum := by
  intro A B h
  induction h with
  | nil => simp
  | cons hab _ ih =>
    simp only [List.map_cons, List.sum_cons]
    exact add_le_add (hf hab) ih

/-- C9 amended: the page estimate is monotone in the measured layout, not
in raw total length — if the two texts have the same paragraph count and
each paragraph of one is at least as long as the corresponding paragraph
of the other (so no line wrap is lost by redistribution), the estimate of
the longer text is at least the estimate of the shorter one. -/
theorem c9_amended_estimator_monotone (charsPerLine : ℕ) (A B : List ℕ)
    (hAB : List.Forall₂ (· ≤ ·) A B) :
    estimarPaginasComunicado charsPerLine A
      ≤ estimarPaginasComunicado charsPerLine B := by
  have hf : Monotone (fun len : ℕ =>
      (144 / 5 : ℚ) * (((len + charsPerLine - 1) / charsPerLine : ℕ) : ℚ) + 20) := by
    intro a b hab
    have hdiv : (a + charsPerLine - 1) / charsPerLine
        ≤ (b + charsPerLine - 1) / charsPerLine :=
      Nat.div_le_div_right (by omega)
    have hcast : (((a + charsPerLine - 1) / charsPerLine : ℕ) : ℚ)
        ≤ (((b + charsPerLine - 1) / charsPerLine : ℕ) : ℚ) := by
      exact_mod_cast hdiv
    dsimp only
    nlinarith
  have hheight : measuredContentHeight charsPerLine A
      ≤ measuredContentHeight charsPerLine B := by
    unfold measuredContentHeight
    have := sum_map_mono_of_forall₂ _ hf hAB
    linarith
  have h167 : (0 : ℚ) < estUsableHeightMM := by norm_num [estUsableHeightMM]
  have h2 : measuredContentHeight charsPerLine A * (210 / 800) / estUsableHeightMM
      ≤ measuredContentHeight charsPerLine B * (210 / 800) / estUsableHeightMM := by
    gcongr
  exact max_le_max (le_refl 1) (Int.ceil_mono h2)

theorem c9_amended_estimator_monotone_witness :
    List.Forall₂ (· ≤ · : ℕ → ℕ → Prop) [10, 20] [15, 30] ∧
    estimarPaginasComunicado 50 [10, 20] ≤ estimarPaginasComunicado 50 [15, 30] :=
  ⟨List.Forall₂.cons (by norm_num)
      (List.Forall₂.cons (by norm_num) List.Forall₂.nil),
    c9_amended_estimator_monotone 50 [10, 20] [15, 30]
      (List.Forall₂.cons (by norm_num)
        (List.Forall₂.cons (by norm_num) List.Forall₂.nil))⟩

theorem renderLine_eq_spec (p : List Char) :
    renderLine p = specRenderLine (trimChars p) := by
  have hcond : (matchesTitleRegex (trimChars p) || startsWithArticulo (trimChars p))
      = specTitleLine (trimChars p) := rfl
  simp only [renderLine, specRenderLine, hcond]
  cases specTitleLine (trimChars p) with
  | false => simp
  | true => simp

/-- C10: `formatComunicadoContent` returns the empty string on a missing
or empty input, and otherwise emits exactly one `<p>` per non-blank line
— blank and whitespace-only lines are dropped — with the line's trimmed
text HTML-escaped, classed as a title exactly when the line is entirely
uppercase letters (accented ones included) and whitespace or starts with
ARTICULO/ARTÍCULO, and as a body paragraph otherwise. -/
theorem c10_formatter_refines_spec :
    formatComunicadoContent none = [] ∧
    formatComunicadoContent (some []) = [] ∧
    ∀ content : Option (List Char),
      formatComunicadoContent content = specFormatComunicadoContent content := by
  refine ⟨rfl, rfl, ?_⟩
  intro content
  match content with
  | none => rfl
  | some cs =>
    show formatComunicadoContent (some cs) = specFormatComunicadoContent (some cs)
    rw [formatComunicadoContent, specFormatComunicadoContent]
    by_cases hcs : cs.isEmpty = true
    · rw [if_pos hcs, if_pos hcs]
    · rw [if_neg hcs, if_neg hcs]
      congr 1
      rw [List.filter_map trimChars (cs.splitOn '\n'), List.map_map]
      exact List.map_congr_left (fun p _ => renderLine_eq_spec p)

end SistemaAdmin
